import Mathlib

/-
Verification of the named extension-point dispatcher module
(`src/schemathesis/hooks.py`) against its natural-language specification.

The module is embedded shallowly: the mutable `_hooks` dict of a
`HookDispatcher` becomes an association list threaded through each
operation in state-passing style, a Python `raise` becomes an
`Except.error` result (returned together with the state as it was at the
moment of the raise), and `warnings.warn` calls become an emitted list of
warning messages.  Hook bodies are caller-supplied external code, so they
are represented by a small first-order language (`HookImpl`) with an
evaluator; the dispatcher code itself never inspects a hook body, only its
`__name__` and its `inspect.signature` parameter list, both of which are
fields of `Callable`.
-/

namespace Schemathesis

/-- Runtime values that flow into and out of hooks.  `Value.none` is the
Python `None` object; the other constructors stand for arbitrary non-None
hook inputs and outputs (strategies, etc., opaque to the dispatcher). -/
inductive Value where
  | none
  | str (s : String)
  | nat (n : Nat)
  deriving DecidableEq

/-- The body of a caller-supplied hook, as a first-order code so that
equality of callables is decidable: a hook either returns a fixed value or
echoes its first argument. The dispatcher never looks inside a body. -/
inductive HookImpl where
  | const (v : Value)
  | firstArg
  deriving DecidableEq

/-- Evaluate a hook body on the positional arguments of a call. -/
def HookImpl.run : HookImpl → List Value → Value
  | HookImpl.const v, _ => v
  | HookImpl.firstArg, args => args.headD Value.none

/-- A Python callable as the hooks module observes it: its `__name__`, the
parameter names of `inspect.signature(hook).parameters` in order, and its
behavior when invoked. -/
structure Callable where
  name : String
  params : List String
  impl : HookImpl
  deriving DecidableEq

/-- Exceptions raised by the hooks module: `TypeError(msg)` and
`KeyError(key)`. -/
inductive PyError where
  | typeError (msg : String)
  | keyError (key : String)
  deriving DecidableEq

/-- Lookup in a Python dict represented as an association list
(`d.get(k)` / `d[k]` after a containment check). -/
def dictFind (k : String) : List (String × α) → Option α
  | [] => Option.none
  | (k2, v) :: rest => if k2 = k then some v else dictFind k rest

/-- Assignment `d[k] = v` in a Python dict represented as an association
list: replace the value in place if the key is present, append otherwise. -/
def dictSet (k : String) (v : α) : List (String × α) → List (String × α)
  | [] => [(k, v)]
  | (k2, v2) :: rest => if k2 = k then (k, v) :: rest else (k2, v2) :: dictSet k v rest

/-- The class method `HookDispatcher.register_spec`: it stores
`inspect.signature(spec)` keyed by `spec.__name__` in the class-level
`_specs` dict.  Only the parameter-name list of the signature is ever
consulted afterwards, so that is what we record. -/
def register_spec (specs : List (String × List String)) (spec : Callable) :
    List (String × List String) :=
  dictSet spec.name spec.params specs

/-- The spec function `before_generate_path_parameters(strategy, context)`
declared at module level (its body is `pass`, i.e. it returns None). -/
def before_generate_path_parameters : Callable :=
  ⟨"before_generate_path_parameters", ["strategy", "context"], HookImpl.const Value.none⟩

/-- The spec function `before_generate_headers(strategy, context)`. -/
def before_generate_headers : Callable :=
  ⟨"before_generate_headers", ["strategy", "context"], HookImpl.const Value.none⟩

/-- The spec function `before_generate_cookies(strategy, context)`. -/
def before_generate_cookies : Callable :=
  ⟨"before_generate_cookies", ["strategy", "context"], HookImpl.const Value.none⟩

/-- The spec function `before_generate_query(strategy, context)`. -/
def before_generate_query : Callable :=
  ⟨"before_generate_query", ["strategy", "context"], HookImpl.const Value.none⟩

/-- The spec function `before_generate_body(strategy, context)`. -/
def before_generate_body : Callable :=
  ⟨"before_generate_body", ["strategy", "context"], HookImpl.const Value.none⟩

/-- The spec function `before_generate_form_data(strategy, context)`. -/
def before_generate_form_data : Callable :=
  ⟨"before_generate_form_data", ["strategy", "context"], HookImpl.const Value.none⟩

/-- The class-level `_specs` dict after the module body has applied the
`@HookDispatcher.register_spec` decorator to the six declared spec
functions, in source order. -/
def specsRegistry : List (String × List String) :=
  [before_generate_path_parameters, before_generate_headers, before_generate_cookies,
   before_generate_query, before_generate_body,
   before_generate_form_data].foldl register_spec []

/-- Instance state of a `HookDispatcher`: the `_hooks` dict mapping an
extension-point name to the one registered callable.  A fresh dispatcher
(`HookDispatcher()`) starts with `hooks = []`. -/
structure HookDispatcher where
  hooks : List (String × Callable)
  deriving DecidableEq

/-- The method `HookDispatcher._validate_hook(name, hook)`: raises
`TypeError` when `_specs` has no entry under `name`, raises `TypeError`
citing both counts when the hook's parameter count differs from the spec's,
and returns normally otherwise. -/
def validate_hook (name : String) (hook : Callable) : Except PyError Unit :=
  match dictFind name specsRegistry with
  | Option.none =>
      Except.error (PyError.typeError ("There is no hook with name '" ++ name ++ "'"))
  | some spec =>
      if hook.params.length ≠ spec.length then
        Except.error (PyError.typeError ("Hook '" ++ name ++ "' takes "
          ++ toString spec.length ++ " arguments but "
          ++ toString hook.params.length ++ " is defined"))
      else Except.ok ()

/-- The method `HookDispatcher.register_hook_with_name(name, hook,
skip_validation)`: unless validation is skipped it first runs
`_validate_hook` (a raise aborts before the store, so the state comes back
unchanged with the error), then performs `self._hooks[name] = hook` and
returns the hook itself. -/
def HookDispatcher.register_hook_with_name (d : HookDispatcher) (name : String)
    (hook : Callable) (skip_validation : Bool) : HookDispatcher × Except PyError Callable :=
  if skip_validation then (⟨dictSet name hook d.hooks⟩, Except.ok hook)
  else
    match validate_hook name hook with
    | Except.error e => (d, Except.error e)
    | Except.ok _ => (⟨dictSet name hook d.hooks⟩, Except.ok hook)

/-- The method `HookDispatcher.dispatch(name, *args)`: when `name` is not
in `_hooks` it returns `None`; otherwise it invokes the registered hook on
the supplied arguments and returns its result verbatim. -/
def HookDispatcher.dispatch (d : HookDispatcher) (name : String) (args : List Value) : Value :=
  match dictFind name d.hooks with
  | Option.none => Value.none
  | some hook => hook.impl.run args

/-- The method `HookDispatcher.get_hook(name)`: `self._hooks.get(name)`. -/
def HookDispatcher.get_hook (d : HookDispatcher) (name : String) : Option Callable :=
  dictFind name d.hooks

/-- The method `HookDispatcher.unregister_all()`: `self._hooks = {}`. -/
def HookDispatcher.unregister_all (_d : HookDispatcher) : HookDispatcher := ⟨[]⟩

/-- The one argument of `HookDispatcher.register`, which Python types as
`Union[str, Callable]` and resolves by `isinstance(hook, str)`. -/
inductive StrOrCallable where
  | str (s : String)
  | fn (c : Callable)

/-- What `HookDispatcher.register` returns: for a string argument, the
inner `decorator` closure (which, applied to a function, registers it under
the captured name); for a callable argument, the callable itself after
direct registration. -/
inductive RegisterReturn where
  | decorated (k : Callable → HookDispatcher × Except PyError Callable)
  | value (c : Callable)

/-- The method `HookDispatcher.register(hook)`: the dual decorator form.
When the argument is a string it returns the `decorator` closure over
`self` and the name; otherwise it registers the callable directly under
`hook.__name__`. -/
def HookDispatcher.register (d : HookDispatcher) (hook : StrOrCallable) :
    HookDispatcher × Except PyError RegisterReturn :=
  match hook with
  | StrOrCallable.str s =>
      (d, Except.ok (RegisterReturn.decorated
        (fun func => d.register_hook_with_name s func false)))
  | StrOrCallable.fn c =>
      ((d.register_hook_with_name c.name c false).1,
       (d.register_hook_with_name c.name c false).2.map RegisterReturn.value)

/-- A test artifact (the function a `schema.hooks.apply(...)` decorator is
placed on): an opaque payload standing for the function itself, and the
optional `_schemathesis_hooks` attribute. -/
structure TestArtifact where
  payload : Nat
  schemathesis_hooks : Option HookDispatcher
  deriving DecidableEq

/-- The lazy-attachment step of `HookDispatcher.apply`: when the artifact
has no `_schemathesis_hooks` attribute a fresh empty dispatcher
(`self.__class__()`) is used, otherwise the attached one. -/
def attachedDispatcher (func : TestArtifact) : HookDispatcher :=
  match func.schemathesis_hooks with
  | Option.none => HookDispatcher.mk []
  | some a => a

/-- The method `HookDispatcher.apply(name, hook)` applied to an artifact
(the returned decorator is the partial application `d.apply name hook`).
It attaches the lazily-created-or-reused dispatcher, registers `hook` under
`name` on it (with validation), and returns the artifact.  The result
triple is (self after the call, the artifact after the call, the
decorator's return or raise); `self` is never written. -/
def HookDispatcher.apply (d : HookDispatcher) (name : String) (hook : Callable)
    (func : TestArtifact) : HookDispatcher × TestArtifact × Except PyError TestArtifact :=
  match (attachedDispatcher func).register_hook_with_name name hook false with
  | (a2, Except.ok _) => (d, ⟨func.payload, some a2⟩, Except.ok ⟨func.payload, some a2⟩)
  | (a2, Except.error e) => (d, ⟨func.payload, some a2⟩, Except.error e)

/-- The module-level `GLOBAL_HOOK_DISPATCHER = HookDispatcher()` in its
initial state. -/
def GLOBAL_HOOK_DISPATCHER : HookDispatcher := HookDispatcher.mk []

/-- The message of the deprecation warning `warn_deprecated_hook` emits. -/
def deprecated_hook_msg : String :=
  "Hook functions that do not accept `context` argument are deprecated and support will be removed in Schemathesis 2.0."

/-- The function `warn_deprecated_hook(hook)`: warns exactly when the
hook's signature has no parameter named `context`.  The result is the list
of warning messages emitted. -/
def warn_deprecated_hook (hook : Callable) : List String :=
  if "context" ∈ hook.params then [] else [deprecated_hook_msg]

/-- The message of the deprecation warning the two-argument form of the
module-level `register` emits. -/
def two_arg_deprecation_msg : String :=
  "Calling `schemathesis.register` with two arguments is deprecated, use it as a decorator instead."

/-- Modelled from the spec: the fixed enumerated set of recognized legacy
hook locations.  `HookLocation.__members__` lives in `constants.py`, which
is not among the given source files; the spec says the legacy entry point
"validates `place` against a fixed enumerated set of recognized legacy
locations" and "synthesizes the canonical name by prefixing"
`before_generate_`, so the members are the places whose canonical names are
the six declared extension points. -/
def hookLocationMembers : List String :=
  ["path_parameters", "headers", "cookies", "query", "body", "form_data"]

/-- The two-argument branch of the module-level `register(place, hook)`
(lines 177 to 187 of `hooks.py`): it first warns that the two-argument form
is deprecated, then runs `warn_deprecated_hook(hook)`, then raises
`KeyError(place)` when `place` is not a member of `HookLocation`, and
otherwise registers the hook on the global dispatcher under
`before_generate_` ++ `place` with validation skipped.  The result is
(warning messages emitted in order, global dispatcher after the call, the
return or raise). -/
def register_two (g : HookDispatcher) (place : String) (hook : Callable) :
    List String × HookDispatcher × Except PyError Callable :=
  let ws := two_arg_deprecation_msg :: warn_deprecated_hook hook
  if place ∈ hookLocationMembers then
    (ws, g.register_hook_with_name ("before_generate_" ++ place) hook true)
  else
    (ws, g, Except.error (PyError.keyError place))

/-- Decidable equality of `Except` results, so that concrete runs of the
embedded operations can be checked by evaluation. -/
instance {ε α : Type} [DecidableEq ε] [DecidableEq α] : DecidableEq (Except ε α) := fun a b =>
  match a, b with
  | Except.error e1, Except.error e2 =>
      if h : e1 = e2 then isTrue (by rw [h]) else isFalse (by intro hc; injection hc; contradiction)
  | Except.ok v1, Except.ok v2 =>
      if h : v1 = v2 then isTrue (by rw [h]) else isFalse (by intro hc; injection hc; contradiction)
  | Except.error _, Except.ok _ => isFalse (by intro hc; injection hc)
  | Except.ok _, Except.error _ => isFalse (by intro hc; injection hc)

/-- Looking up the key just set in a dict finds the new value. -/
theorem dictFind_dictSet_self {α : Type} (k : String) (v : α) (l : List (String × α)) :
    dictFind k (dictSet k v l) = some v := by
  induction l with
  | nil => simp [dictSet, dictFind]
  | cons p rest ih =>
      obtain ⟨k2, v2⟩ := p
      by_cases h : k2 = k
      · simp [dictSet, dictFind, h]
      · simp [dictSet, dictFind, h, ih]

/-- Setting one key leaves lookups of every other key unchanged. -/
theorem dictFind_dictSet_ne {α : Type} (k m : String) (v : α) (l : List (String × α))
    (h : m ≠ k) : dictFind m (dictSet k v l) = dictFind m l := by
  induction l with
  | nil => simp [dictSet, dictFind, Ne.symm h]
  | cons p rest ih =>
      obtain ⟨k2, v2⟩ := p
      by_cases h2 : k2 = k
      · subst h2; simp [dictSet, dictFind, Ne.symm h]
      · simp [dictSet, dictFind, h2, ih]

/-- A registration that returned normally stored the hook under the name
and handed the very hook back. -/
theorem register_hook_with_name_ok (d : HookDispatcher) (name : String) (hook c : Callable)
    (skip : Bool)
    (h : (d.register_hook_with_name name hook skip).2 = Except.ok c) :
    (d.register_hook_with_name name hook skip).1 = ⟨dictSet name hook d.hooks⟩ ∧ c = hook := by
  unfold HookDispatcher.register_hook_with_name at h ⊢
  cases skip with
  | true =>
      simp at h ⊢
      exact h.symm
  | false =>
      cases hv : validate_hook name hook with
      | error e => rw [hv] at h; simp at h
      | ok u =>
          rw [hv] at h
          simp at h ⊢
          exact h.symm

/-- A registration that raised left the dispatcher exactly as it was. -/
theorem register_hook_with_name_error (d : HookDispatcher) (name : String) (hook : Callable)
    (skip : Bool) (e : PyError)
    (h : (d.register_hook_with_name name hook skip).2 = Except.error e) :
    (d.register_hook_with_name name hook skip).1 = d := by
  unfold HookDispatcher.register_hook_with_name at h ⊢
  cases skip with
  | true => simp at h
  | false =>
      cases hv : validate_hook name hook with
      | error e2 => simp
      | ok u => rw [hv] at h; simp at h

/-- C1 (amended): `dispatch(N, ...)` on a dispatcher with no hook registered
under N raises nothing and returns the "no value" sentinel, which is the
Python `None` object.  (The claimed distinctness of the sentinel from every
legitimate hook return value does not hold; see the counterexample.) -/
theorem C1_dispatch_missing_returns_none (d : HookDispatcher) (name : String)
    (args : List Value) (h : d.get_hook name = Option.none) :
    d.dispatch name args = Value.none := by
  unfold HookDispatcher.dispatch
  unfold HookDispatcher.get_hook at h
  rw [h]

theorem C1_dispatch_missing_returns_none_witness :
    (HookDispatcher.mk []).dispatch "before_generate_query" [Value.nat 7] = Value.none :=
  C1_dispatch_missing_returns_none (HookDispatcher.mk []) "before_generate_query"
    [Value.nat 7] (by decide)

/-- C1 counterexample: the sentinel is not distinct from every legitimate
hook return value.  A hook returning None is registered under
`before_generate_query`, and dispatching to it yields exactly the same
result as dispatching on a dispatcher with no hook at all, so the caller
cannot distinguish "no hook fired" from "the hook returned None". -/
theorem C1_sentinel_not_distinct_counterexample :
    (HookDispatcher.mk []).dispatch "before_generate_query" [Value.nat 1] = Value.none ∧
    ((HookDispatcher.mk []).register_hook_with_name "before_generate_query"
        ⟨"h", ["strategy", "context"], HookImpl.const Value.none⟩ false).1.get_hook
        "before_generate_query"
      = some ⟨"h", ["strategy", "context"], HookImpl.const Value.none⟩ ∧
    ((HookDispatcher.mk []).register_hook_with_name "before_generate_query"
        ⟨"h", ["strategy", "context"], HookImpl.const Value.none⟩ false).1.dispatch
        "before_generate_query" [Value.nat 1]
      = (HookDispatcher.mk []).dispatch "before_generate_query" [Value.nat 1] := by
  decide

/-- C2: for every declared extension-point name with spec arity A,
registering a callable with exactly A parameters succeeds (parameter names
are irrelevant), and registering one with a different parameter count fails
with a TypeError whose message states both A and the actual count. -/
theorem C2_arity_validation (d : HookDispatcher) (name : String) (spec : List String)
    (hook : Callable) (hspec : dictFind name specsRegistry = some spec) :
    (hook.params.length = spec.length →
      d.register_hook_with_name name hook false
        = (⟨dictSet name hook d.hooks⟩, Except.ok hook)) ∧
    (hook.params.length ≠ spec.length →
      d.register_hook_with_name name hook false
        = (d, Except.error (PyError.typeError ("Hook '" ++ name ++ "' takes "
            ++ toString spec.length ++ " arguments but "
            ++ toString hook.params.length ++ " is defined")))) := by
  constructor <;> intro h <;>
    simp [HookDispatcher.register_hook_with_name, validate_hook, hspec, h]

theorem C2_arity_validation_witness :
    ((HookDispatcher.mk []).register_hook_with_name "before_generate_query"
        ⟨"h2", ["a", "b"], HookImpl.firstArg⟩ false
      = (⟨[("before_generate_query", ⟨"h2", ["a", "b"], HookImpl.firstArg⟩)]⟩,
         Except.ok ⟨"h2", ["a", "b"], HookImpl.firstArg⟩)) ∧
    ((HookDispatcher.mk []).register_hook_with_name "before_generate_query"
        ⟨"h3", ["a", "b", "c"], HookImpl.firstArg⟩ false
      = (HookDispatcher.mk [], Except.error (PyError.typeError
          "Hook 'before_generate_query' takes 2 arguments but 3 is defined"))) :=
  ⟨(C2_arity_validation (HookDispatcher.mk []) "before_generate_query" ["strategy", "context"]
      ⟨"h2", ["a", "b"], HookImpl.firstArg⟩ (by decide)).1 (by decide),
   (C2_arity_validation (HookDispatcher.mk []) "before_generate_query" ["strategy", "context"]
      ⟨"h3", ["a", "b", "c"], HookImpl.firstArg⟩ (by decide)).2 (by decide)⟩

/-- C3: registering any callable, of any parameter count, under a name
absent from the spec registry fails with the unknown-extension-point
TypeError naming that name, and stores nothing. -/
theorem C3_unknown_name (d : HookDispatcher) (name : String) (hook : Callable)
    (h : dictFind name specsRegistry = Option.none) :
    d.register_hook_with_name name hook false
      = (d, Except.error (PyError.typeError
          ("There is no hook with name '" ++ name ++ "'"))) := by
  simp [HookDispatcher.register_hook_with_name, validate_hook, h]

theorem C3_unknown_name_witness :
    ((HookDispatcher.mk []).register_hook_with_name "nope"
        ⟨"h0", [], HookImpl.firstArg⟩ false
      = (HookDispatcher.mk [], Except.error (PyError.typeError
          "There is no hook with name 'nope'"))) ∧
    ((HookDispatcher.mk []).register_hook_with_name "nope"
        ⟨"h5", ["a", "b", "c", "d", "e"], HookImpl.firstArg⟩ false
      = (HookDispatcher.mk [], Except.error (PyError.typeError
          "There is no hook with name 'nope'"))) :=
  ⟨C3_unknown_name (HookDispatcher.mk []) "nope" ⟨"h0", [], HookImpl.firstArg⟩ (by decide),
   C3_unknown_name (HookDispatcher.mk []) "nope"
     ⟨"h5", ["a", "b", "c", "d", "e"], HookImpl.firstArg⟩ (by decide)⟩

/-- C4: successful registration stores the callable under the name,
replacing any prior registration on the same dispatcher — after
registering h1 then h2 under one name, `get_hook` returns h2 and (when the
two differ) h1 is no longer retrievable — and each registration call hands
back the original callable unchanged. -/
theorem C4_last_registration_wins (d : HookDispatcher) (name : String)
    (h1 h2 c1 c2 : Callable)
    (hr1 : (d.register_hook_with_name name h1 false).2 = Except.ok c1)
    (hr2 : (((d.register_hook_with_name name h1 false).1).register_hook_with_name
              name h2 false).2 = Except.ok c2) :
    c1 = h1 ∧ c2 = h2 ∧
    (((d.register_hook_with_name name h1 false).1).register_hook_with_name
        name h2 false).1.get_hook name = some h2 ∧
    (h1 ≠ h2 →
      (((d.register_hook_with_name name h1 false).1).register_hook_with_name
          name h2 false).1.get_hook name ≠ some h1) := by
  obtain ⟨hd1, hc1⟩ := register_hook_with_name_ok _ _ _ _ _ hr1
  obtain ⟨hd2, hc2⟩ := register_hook_with_name_ok _ _ _ _ _ hr2
  refine ⟨hc1, hc2, ?_, ?_⟩
  · rw [hd2]
    unfold HookDispatcher.get_hook
    exact dictFind_dictSet_self name h2 _
  · intro hne hcontra
    rw [hd2] at hcontra
    unfold HookDispatcher.get_hook at hcontra
    rw [dictFind_dictSet_self] at hcontra
    exact hne (Option.some.inj hcontra).symm

theorem C4_last_registration_wins_witness :
    ((HookDispatcher.mk []).register_hook_with_name "before_generate_query"
        ⟨"h1", ["strategy", "context"], HookImpl.const (Value.str "a")⟩ false).2
      = Except.ok ⟨"h1", ["strategy", "context"], HookImpl.const (Value.str "a")⟩ ∧
    ((((HookDispatcher.mk []).register_hook_with_name "before_generate_query"
        ⟨"h1", ["strategy", "context"], HookImpl.const (Value.str "a")⟩ false).1).register_hook_with_name
        "before_generate_query"
        ⟨"h2", ["strategy", "context"], HookImpl.const (Value.str "b")⟩ false).1.get_hook
        "before_generate_query"
      = some ⟨"h2", ["strategy", "context"], HookImpl.const (Value.str "b")⟩ :=
  ⟨by decide,
   (C4_last_registration_wins (HookDispatcher.mk []) "before_generate_query"
      ⟨"h1", ["strategy", "context"], HookImpl.const (Value.str "a")⟩
      ⟨"h2", ["strategy", "context"], HookImpl.const (Value.str "b")⟩
      ⟨"h1", ["strategy", "context"], HookImpl.const (Value.str "a")⟩
      ⟨"h2", ["strategy", "context"], HookImpl.const (Value.str "b")⟩
      (by decide) (by decide)).2.2.1⟩

/-- C10: a registration attempt with validation enabled that fails leaves
the dispatcher exactly as it was: the state is unchanged, and `get_hook`
and `dispatch` behave for every name as if the attempt never happened. -/
theorem C10_failed_registration_preserves_state (d : HookDispatcher) (name : String)
    (hook : Callable) (e : PyError)
    (h : (d.register_hook_with_name name hook false).2 = Except.error e) :
    (d.register_hook_with_name name hook false).1 = d ∧
    (∀ m, ((d.register_hook_with_name name hook false).1).get_hook m = d.get_hook m) ∧
    (∀ m args, ((d.register_hook_with_name name hook false).1).dispatch m args
      = d.dispatch m args) := by
  have hd := register_hook_with_name_error d name hook false e h
  exact ⟨hd, fun m => by rw [hd], fun m args => by rw [hd]⟩

theorem C10_failed_registration_preserves_state_witness :
    ((HookDispatcher.mk [("before_generate_query",
        ⟨"q", ["strategy", "context"], HookImpl.firstArg⟩)]).register_hook_with_name
        "nope" ⟨"n", ["strategy", "context"], HookImpl.firstArg⟩ false).1
      = HookDispatcher.mk [("before_generate_query",
          ⟨"q", ["strategy", "context"], HookImpl.firstArg⟩)] ∧
    (∀ m, (((HookDispatcher.mk [("before_generate_query",
        ⟨"q", ["strategy", "context"], HookImpl.firstArg⟩)]).register_hook_with_name
        "nope" ⟨"n", ["strategy", "context"], HookImpl.firstArg⟩ false).1).get_hook m
      = (HookDispatcher.mk [("before_generate_query",
          ⟨"q", ["strategy", "context"], HookImpl.firstArg⟩)]).get_hook m) ∧
    (∀ m args, (((HookDispatcher.mk [("before_generate_query",
        ⟨"q", ["strategy", "context"], HookImpl.firstArg⟩)]).register_hook_with_name
        "nope" ⟨"n", ["strategy", "context"], HookImpl.firstArg⟩ false).1).dispatch m args
      = (HookDispatcher.mk [("before_generate_query",
          ⟨"q", ["strategy", "context"], HookImpl.firstArg⟩)]).dispatch m args) :=
  C10_failed_registration_preserves_state
    (HookDispatcher.mk [("before_generate_query",
      ⟨"q", ["strategy", "context"], HookImpl.firstArg⟩)])
    "nope" ⟨"n", ["strategy", "context"], HookImpl.firstArg⟩
    (PyError.typeError "There is no hook with name 'nope'") (by decide)

/-- C5 counterexample: a legacy hook whose signature has no `context`
parameter registers fine under a recognized location (validation skipped,
stored under the prefixed name), but two deprecation warnings are emitted,
not exactly one. -/
theorem C5_two_warnings_counterexample :
    register_two GLOBAL_HOOK_DISPATCHER "query"
        ⟨"hook", ["strategy"], HookImpl.const (Value.str "v")⟩
      = ([two_arg_deprecation_msg, deprecated_hook_msg],
         ⟨[("before_generate_query", ⟨"hook", ["strategy"], HookImpl.const (Value.str "v")⟩)]⟩,
         Except.ok ⟨"hook", ["strategy"], HookImpl.const (Value.str "v")⟩) ∧
    (register_two GLOBAL_HOOK_DISPATCHER "query"
        ⟨"hook", ["strategy"], HookImpl.const (Value.str "v")⟩).1.length ≠ 1 := by
  decide

/-- C5 (amended): for a recognized legacy location, two-argument
registration succeeds for every hook with spec and arity validation
skipped, storing the hook under the location prefixed with
`before_generate_`; the two-argument deprecation warning is always
emitted, and a second deprecation warning follows exactly when the hook
has no parameter named `context`, so exactly one warning is emitted only
when the hook does accept `context`. -/
theorem C5_legacy_recognized_place (g : HookDispatcher) (place : String) (hook : Callable)
    (hp : place ∈ hookLocationMembers) :
    register_two g place hook
      = (two_arg_deprecation_msg :: warn_deprecated_hook hook,
         ⟨dictSet ("before_generate_" ++ place) hook g.hooks⟩, Except.ok hook) ∧
    (register_two g place hook).1.length = (if "context" ∈ hook.params then 1 else 2) := by
  constructor
  · simp [register_two, hp, HookDispatcher.register_hook_with_name]
  · by_cases hc : "context" ∈ hook.params <;>
      simp [register_two, hp, warn_deprecated_hook, hc]

theorem C5_legacy_recognized_place_witness :
    register_two GLOBAL_HOOK_DISPATCHER "headers"
        ⟨"legacy", ["strategy"], HookImpl.firstArg⟩
      = (two_arg_deprecation_msg
           :: warn_deprecated_hook ⟨"legacy", ["strategy"], HookImpl.firstArg⟩,
         ⟨dictSet ("before_generate_" ++ "headers")
            (⟨"legacy", ["strategy"], HookImpl.firstArg⟩ : Callable)
            GLOBAL_HOOK_DISPATCHER.hooks⟩,
         Except.ok ⟨"legacy", ["strategy"], HookImpl.firstArg⟩) ∧
    (register_two GLOBAL_HOOK_DISPATCHER "headers"
        ⟨"legacy", ["strategy"], HookImpl.firstArg⟩).1.length
      = (if "context" ∈ (⟨"legacy", ["strategy"], HookImpl.firstArg⟩ : Callable).params
         then 1 else 2) :=
  C5_legacy_recognized_place GLOBAL_HOOK_DISPATCHER "headers"
    ⟨"legacy", ["strategy"], HookImpl.firstArg⟩ (by decide)

/-- C6 counterexample: with an unrecognized legacy location the
registration does fail with a KeyError naming the bad key and stores
nothing, but deprecation warnings ARE emitted before the failure,
contradicting the claimed "no warning is emitted". -/
theorem C6_warning_before_lookup_counterexample :
    register_two GLOBAL_HOOK_DISPATCHER "nonexistent"
        ⟨"hook", ["strategy"], HookImpl.const (Value.str "v")⟩
      = ([two_arg_deprecation_msg, deprecated_hook_msg], GLOBAL_HOOK_DISPATCHER,
         Except.error (PyError.keyError "nonexistent")) ∧
    (register_two GLOBAL_HOOK_DISPATCHER "nonexistent"
        ⟨"hook", ["strategy"], HookImpl.const (Value.str "v")⟩).1 ≠ [] := by
  decide

/-- C6 (amended): for a location outside the fixed enumerated set the
two-argument registration fails with a KeyError naming the bad key and the
global dispatcher is left unchanged (no hook stored), but the deprecation
warnings — the two-argument warning, plus the context warning when the
hook lacks a `context` parameter — are emitted before the failure. -/
theorem C6_legacy_unrecognized_place (g : HookDispatcher) (place : String) (hook : Callable)
    (hp : place ∉ hookLocationMembers) :
    register_two g place hook
      = (two_arg_deprecation_msg :: warn_deprecated_hook hook, g,
         Except.error (PyError.keyError place)) ∧
    (register_two g place hook).1 ≠ [] := by
  constructor <;> simp [register_two, hp]

theorem C6_legacy_unrecognized_place_witness :
    register_two GLOBAL_HOOK_DISPATCHER "qurey"
        ⟨"legacy", ["strategy"], HookImpl.firstArg⟩
      = (two_arg_deprecation_msg
           :: warn_deprecated_hook ⟨"legacy", ["strategy"], HookImpl.firstArg⟩,
         GLOBAL_HOOK_DISPATCHER, Except.error (PyError.keyError "qurey")) ∧
    (register_two GLOBAL_HOOK_DISPATCHER "qurey"
        ⟨"legacy", ["strategy"], HookImpl.firstArg⟩).1 ≠ [] :=
  C6_legacy_unrecognized_place GLOBAL_HOOK_DISPATCHER "qurey"
    ⟨"legacy", ["strategy"], HookImpl.firstArg⟩ (by decide)

/-- Characterization of the three components returned by an `apply` call:
self is untouched, the artifact carries the attached dispatcher after the
registration attempt, and the decorator returns the artifact on success or
re-raises the registration error. -/
theorem apply_components (d : HookDispatcher) (name : String) (hook : Callable)
    (func : TestArtifact) :
    (d.apply name hook func).1 = d ∧
    (d.apply name hook func).2.1
      = ⟨func.payload,
         some ((attachedDispatcher func).register_hook_with_name name hook false).1⟩ ∧
    (d.apply name hook func).2.2
      = (match ((attachedDispatcher func).register_hook_with_name name hook false).2 with
         | Except.ok _ => Except.ok (⟨func.payload,
             some ((attachedDispatcher func).register_hook_with_name name hook false).1⟩
               : TestArtifact)
         | Except.error e => Except.error e) := by
  unfold HookDispatcher.apply
  rcases hr : (attachedDispatcher func).register_hook_with_name name hook false with ⟨a2, r⟩
  cases r <;> simp

/-- An `apply` whose decorator returned normally produced the artifact
whose attached dispatcher is the lazily-created-or-reused one extended by
the new registration, and returned that very artifact. -/
theorem apply_ok_artifact (d : HookDispatcher) (name : String) (hook : Callable)
    (func f2 : TestArtifact)
    (h : (d.apply name hook func).2.2 = Except.ok f2) :
    f2 = ⟨func.payload, some ⟨dictSet name hook (attachedDispatcher func).hooks⟩⟩ ∧
    (d.apply name hook func).2.1 = f2 := by
  obtain ⟨_, hb, hc⟩ := apply_components d name hook func
  rw [hc] at h
  cases hr : ((attachedDispatcher func).register_hook_with_name name hook false).2 with
  | error e => rw [hr] at h; simp at h
  | ok c =>
      rw [hr] at h
      simp at h
      obtain ⟨hd1, _⟩ := register_hook_with_name_ok (attachedDispatcher func) name hook c false hr
      constructor
      · rw [← h, hd1]
      · rw [hb, ← h, hd1]

/-- C7: stacking two apply decorators for the same extension-point name on
one artifact leaves exactly one of the two hooks registered there, and the
winner is deterministic: the hook whose decorator runs last (the one
written topmost in the stack) is the one `get_hook` returns afterwards. -/
theorem C7_last_applied_decorator_wins (d1 d2 : HookDispatcher) (name : String)
    (h1 h2 : Callable) (func f1 f2 : TestArtifact)
    (hs1 : (d1.apply name h1 func).2.2 = Except.ok f1)
    (hs2 : (d2.apply name h2 f1).2.2 = Except.ok f2) :
    ∃ a : HookDispatcher, f2.schemathesis_hooks = some a ∧
      a.get_hook name = some h2 ∧
      (h1 ≠ h2 → a.get_hook name ≠ some h1) := by
  obtain ⟨hf1, _⟩ := apply_ok_artifact d1 name h1 func f1 hs1
  obtain ⟨hf2, _⟩ := apply_ok_artifact d2 name h2 f1 f2 hs2
  refine ⟨⟨dictSet name h2 (attachedDispatcher f1).hooks⟩, by rw [hf2], ?_, ?_⟩
  · unfold HookDispatcher.get_hook
    exact dictFind_dictSet_self name h2 _
  · intro hne hcontra
    unfold HookDispatcher.get_hook at hcontra
    rw [dictFind_dictSet_self] at hcontra
    exact hne (Option.some.inj hcontra).symm

theorem C7_last_applied_decorator_wins_witness :
    ∃ a : HookDispatcher,
      (⟨3, some ⟨[("before_generate_query",
          ⟨"r2", ["context", "strategy"], HookImpl.const (Value.str "foobaz")⟩)]⟩⟩
        : TestArtifact).schemathesis_hooks = some a ∧
      a.get_hook "before_generate_query"
        = some ⟨"r2", ["context", "strategy"], HookImpl.const (Value.str "foobaz")⟩ ∧
      ((⟨"r1", ["context", "strategy"], HookImpl.const (Value.str "foobar")⟩ : Callable)
          ≠ ⟨"r2", ["context", "strategy"], HookImpl.const (Value.str "foobaz")⟩ →
        a.get_hook "before_generate_query"
          ≠ some ⟨"r1", ["context", "strategy"], HookImpl.const (Value.str "foobar")⟩) :=
  C7_last_applied_decorator_wins GLOBAL_HOOK_DISPATCHER GLOBAL_HOOK_DISPATCHER
    "before_generate_query"
    ⟨"r1", ["context", "strategy"], HookImpl.const (Value.str "foobar")⟩
    ⟨"r2", ["context", "strategy"], HookImpl.const (Value.str "foobaz")⟩
    ⟨3, Option.none⟩
    ⟨3, some ⟨[("before_generate_query",
        ⟨"r1", ["context", "strategy"], HookImpl.const (Value.str "foobar")⟩)]⟩⟩
    ⟨3, some ⟨[("before_generate_query",
        ⟨"r2", ["context", "strategy"], HookImpl.const (Value.str "foobaz")⟩)]⟩⟩
    (by decide) (by decide)

/-- C8: `apply name hook` is a decorator that, on an artifact, lazily
creates or reuses the attached dispatcher, registers the hook under the
name on that attached dispatcher (every other name resolving as it did on
the previously attached dispatcher, or to nothing when a fresh one was
created), and returns the artifact itself with its payload untouched;
the dispatcher `apply` was called on stays unchanged. -/
theorem C8_apply_attaches_and_registers (d : HookDispatcher) (name : String)
    (hook : Callable) (func f2 : TestArtifact)
    (h : (d.apply name hook func).2.2 = Except.ok f2) :
    (d.apply name hook func).1 = d ∧
    (d.apply name hook func).2.1 = f2 ∧
    f2.payload = func.payload ∧
    (∃ a : HookDispatcher, f2.schemathesis_hooks = some a ∧
      a.get_hook name = some hook ∧
      ∀ m, m ≠ name → a.get_hook m = (attachedDispatcher func).get_hook m) := by
  obtain ⟨ha, _, _⟩ := apply_components d name hook func
  obtain ⟨hf2, hret⟩ := apply_ok_artifact d name hook func f2 h
  refine ⟨ha, hret, by rw [hf2], ⟨dictSet name hook (attachedDispatcher func).hooks⟩,
    by rw [hf2], ?_, ?_⟩
  · unfold HookDispatcher.get_hook
    exact dictFind_dictSet_self name hook _
  · intro m hm
    unfold HookDispatcher.get_hook
    exact dictFind_dictSet_ne name m hook _ hm

theorem C8_apply_attaches_and_registers_witness :
    (GLOBAL_HOOK_DISPATCHER.apply "before_generate_query"
        ⟨"w8", ["x", "y"], HookImpl.firstArg⟩ ⟨5, Option.none⟩).1 = GLOBAL_HOOK_DISPATCHER ∧
    (GLOBAL_HOOK_DISPATCHER.apply "before_generate_query"
        ⟨"w8", ["x", "y"], HookImpl.firstArg⟩ ⟨5, Option.none⟩).2.1
      = ⟨5, some ⟨[("before_generate_query", ⟨"w8", ["x", "y"], HookImpl.firstArg⟩)]⟩⟩ ∧
    (⟨5, some ⟨[("before_generate_query", ⟨"w8", ["x", "y"], HookImpl.firstArg⟩)]⟩⟩
        : TestArtifact).payload = (⟨5, Option.none⟩ : TestArtifact).payload ∧
    (∃ a : HookDispatcher,
      (⟨5, some ⟨[("before_generate_query", ⟨"w8", ["x", "y"], HookImpl.firstArg⟩)]⟩⟩
          : TestArtifact).schemathesis_hooks = some a ∧
      a.get_hook "before_generate_query" = some ⟨"w8", ["x", "y"], HookImpl.firstArg⟩ ∧
      ∀ m, m ≠ "before_generate_query" →
        a.get_hook m = (attachedDispatcher ⟨5, Option.none⟩).get_hook m) :=
  C8_apply_attaches_and_registers GLOBAL_HOOK_DISPATCHER "before_generate_query"
    ⟨"w8", ["x", "y"], HookImpl.firstArg⟩ ⟨5, Option.none⟩
    ⟨5, some ⟨[("before_generate_query", ⟨"w8", ["x", "y"], HookImpl.firstArg⟩)]⟩⟩
    (by decide)

/-- C9: `register` resolves its dual decorator form by the type of its one
argument: a string argument leaves the dispatcher untouched and yields a
decorator that registers the later-supplied callable under that explicit
name (so a successful application leaves that callable retrievable under
the name), while a callable argument is registered directly under its own
`__name__` (a successful call leaves it retrievable under that name). -/
theorem C9_register_dual_form (d : HookDispatcher) (s : String) (c f : Callable) :
    (d.register (StrOrCallable.str s)).1 = d ∧
    (∃ k, (d.register (StrOrCallable.str s)).2 = Except.ok (RegisterReturn.decorated k) ∧
      k f = d.register_hook_with_name s f false ∧
      ((k f).2 = Except.ok f → (k f).1.get_hook s = some f)) ∧
    (d.register (StrOrCallable.fn c)).1 = (d.register_hook_with_name c.name c false).1 ∧
    (d.register (StrOrCallable.fn c)).2
      = ((d.register_hook_with_name c.name c false).2).map RegisterReturn.value ∧
    ((d.register (StrOrCallable.fn c)).2 = Except.ok (RegisterReturn.value c) →
      (d.register (StrOrCallable.fn c)).1.get_hook c.name = some c) := by
  refine ⟨rfl, ⟨fun func => d.register_hook_with_name s func false, rfl, rfl, ?_⟩,
    rfl, rfl, ?_⟩
  · intro hk
    obtain ⟨hd1, _⟩ := register_hook_with_name_ok d s f f false hk
    rw [hd1]
    unfold HookDispatcher.get_hook
    exact dictFind_dictSet_self s f _
  · intro hv
    have hmap : (d.register_hook_with_name c.name c false).2 = Except.ok c := by
      have : (d.register (StrOrCallable.fn c)).2
          = ((d.register_hook_with_name c.name c false).2).map RegisterReturn.value := rfl
      rw [this] at hv
      cases hr : (d.register_hook_with_name c.name c false).2 with
      | error e => rw [hr] at hv; simp [Except.map] at hv
      | ok c2 =>
          rw [hr] at hv
          simp [Except.map] at hv
          rw [hv]
    obtain ⟨hd1, _⟩ := register_hook_with_name_ok d c.name c c false hmap
    show (d.register_hook_with_name c.name c false).1.get_hook c.name = some c
    rw [hd1]
    unfold HookDispatcher.get_hook
    exact dictFind_dictSet_self c.name c _

end Schemathesis
